import Mathlib

/-!
Verification of the telegram-delete-logger repository against its
natural-language specification.

The development shallowly embeds the program (`tg_delete_logger.py`, the
authoritative variant) in Lean:

* message timestamps are UTC instants measured in whole seconds (`Int`);
  `timedelta(days = n)` becomes `n * 86400`;
* the SQLite-backed message table is a `List DbRow` in insertion order;
* event handlers become pure functions from a configuration, the current
  time, the table state and an event to an updated state plus a trace of
  externally visible actions (vault captures, row inserts, log-chat sends);
* the SQLAlchemy reconciliation query is embedded with the semantics it has
  on the configured `sqlite+aiosqlite` backend: the two chained `order_by`
  calls accumulate into `ORDER BY edited_at DESC, created_at ASC` (SQLite
  sorts NULLs last under DESC), and `distinct(chat_id, id)` degrades to a
  plain `SELECT DISTINCT` over the projected columns because DISTINCT ON is
  a PostgreSQL-only construct that SQLAlchemy silently ignores elsewhere.
-/

/-- Attachment descriptor: the parts of a Telethon media object the program
inspects.  `ttl_seconds = none` models both an absent attribute (the
`AttributeError` branch) and a `None` value; both make the truthiness test
`if event.message.media.ttl_seconds:` fail. -/
structure Media where
  ttl_seconds : Option Int
  deriving DecidableEq, Repr

/-- A Telethon peer reference (`PeerUser` / `PeerChat` / `PeerChannel`). -/
inductive Peer where
  | user (user_id : Int)
  | chat (chat_id : Int)
  | channel (channel_id : Int)
  deriving DecidableEq, Repr

/-- The fields of a Telethon `Message` read by the handlers.
`file_size = none` models `msg.file` being `None`. -/
structure Msg where
  id : Int
  chat_id : Int
  peer_id : Peer
  out : Bool
  from_id : Option Peer
  text : Option String
  media : Option Media
  noforwards : Bool
  file_size : Option Int
  deriving DecidableEq, Repr

/-- Event-shape flags consulted by `get_chat_type`. -/
structure EventFlags where
  is_group : Bool
  is_channel : Bool
  is_private : Bool
  sender_is_bot : Bool
  deriving DecidableEq, Repr

/-- A `NewMessage` / `MessageEdited` event as seen by `new_message_handler`.
`chat_noforwards = none` models `event.chat` lacking the `noforwards`
attribute (the `AttributeError` fallback); `some b` models the attribute
being present with `is True` truth value `b`.  `linkMatch` is the outcome of
the two `re.match` tests on the message text (the `re` module is external to
the repository). -/
structure NMEvent where
  msg : Msg
  isEditedEvt : Bool
  chat_noforwards : Option Bool
  linkMatch : Bool
  flags : EventFlags
  deriving DecidableEq, Repr

/-- `ChatType` enum from `tg_delete_logger.py`. -/
inductive ChatType where
  | USER
  | CHANNEL
  | GROUP
  | BOT
  | UNKNOWN
  deriving DecidableEq, Repr

/-- The integer `.value` of each `ChatType` member. -/
def ChatType.value : ChatType → Nat
  | .USER => 1
  | .CHANNEL => 2
  | .GROUP => 3
  | .BOT => 4
  | .UNKNOWN => 0

/-- The configuration options (`config` module / `Settings`) the embedded
code reads. -/
structure Config where
  log_chat_id : Int
  ignored_ids : List Int
  rate_limit_num_messages : Nat
  max_in_memory_file_size : Int
  persist_time_in_days_user : Int
  persist_time_in_days_channel : Int
  persist_time_in_days_group : Int
  persist_time_in_days_bot : Int
  save_edited_messages : Bool
  deriving DecidableEq, Repr

/-- One row of the `DbMessage` table. -/
structure DbRow where
  id : Int
  from_id : Int
  chat_id : Int
  type : Nat
  msg_text : Option String
  media : Option Media
  noforwards : Bool
  self_destructing : Bool
  created_at : Int
  edited_at : Option Int
  deriving DecidableEq, Repr

/-- The tuple of columns projected by the reconciliation query
(everything except `type` and `edited_at`). -/
structure QRow where
  id : Int
  from_id : Int
  chat_id : Int
  msg_text : Option String
  media : Option Media
  noforwards : Bool
  self_destructing : Bool
  created_at : Int
  deriving DecidableEq, Repr

/-- A file in the `media/` directory, as the reaper sees it. -/
structure MFile where
  path : String
  mtime : Int
  deriving DecidableEq, Repr

/-- Externally visible actions of `new_message_handler`: delegating to the
manual link re-fetch, invoking `save_media_as_file`, the encrypted write it
performs, and the row insert. -/
inductive HAction where
  | linkFetch
  | captureCall (msg_id chat_id : Int)
  | captureWrite (msg_id chat_id : Int)
  | insertRow (row : DbRow)
  deriving DecidableEq, Repr

def HAction.isCaptureCall : HAction → Bool
  | .linkFetch => false
  | .captureCall _ _ => true
  | .captureWrite _ _ => false
  | .insertRow _ => false

def HAction.isInsert : HAction → Bool
  | .linkFetch => false
  | .captureCall _ _ => false
  | .captureWrite _ _ => false
  | .insertRow _ => true

/-- Result of one run of `new_message_handler`: the actions it performed in
order, the uncaught exception (if one propagated out of it), and the table
state afterwards. -/
structure HandlerOut where
  actions : List HAction
  aborted : Option String
  db : List DbRow
  deriving DecidableEq, Repr

/-- `get_chat_type` (tg_delete_logger.py lines 63-73). -/
def get_chat_type (f : EventFlags) : ChatType :=
  if f.is_group then ChatType.GROUP
  else if f.is_channel then ChatType.CHANNEL
  else if f.is_private then (if f.sender_is_bot then ChatType.BOT else ChatType.USER)
  else ChatType.UNKNOWN

/-- `get_sender_id` (lines 146-156). -/
def get_sender_id (my_id : Int) (m : Msg) : Int :=
  match m.peer_id with
  | .user uid => if m.out then my_id else uid
  | .chat _ | .channel _ =>
    match m.from_id with
    | some (.user uid) => uid
    | some (.channel cid) => cid
    | _ => 0

/-- Python truthiness of `event.message.text`. -/
def textTruthy (m : Msg) : Bool :=
  match m.text with
  | some s => s ≠ ""
  | none => false

/-- The guard of the manual re-fetch-by-link branch (lines 81-89). -/
def linkCond (cfg : Config) (my_id : Int) (ev : NMEvent) : Bool :=
  ev.msg.chat_id == cfg.log_chat_id
    && get_sender_id my_id ev.msg == my_id
    && textTruthy ev.msg
    && ev.linkMatch

/-- The ignore-set suppression guard (line 100). -/
def ignoredCond (cfg : Config) (my_id : Int) (ev : NMEvent) : Bool :=
  cfg.ignored_ids.contains (get_sender_id my_id ev.msg)
    || cfg.ignored_ids.contains ev.msg.chat_id

/-- `noforwards` resolution (lines 107-110): chat-level flag, falling back
to the message-level flag when the chat object lacks the attribute. -/
def resolveNoforwards (ev : NMEvent) : Bool :=
  match ev.chat_noforwards with
  | some b => b
  | none => ev.msg.noforwards

/-- `self_destructing` detection (lines 114-118): the attachment carries a
truthy `ttl_seconds`. -/
def resolveSelfDestructing (m : Msg) : Bool :=
  match m.media with
  | some md =>
    match md.ttl_seconds with
    | some t => t ≠ 0
    | none => false
  | none => false

/-- The size-ceiling test in `save_media_as_file` (line 444):
`msg.file and msg.file.size > config.MAX_IN_MEMORY_FILE_SIZE`. -/
def tooLargeB (cfg : Config) (m : Msg) : Bool :=
  match m.file_size with
  | some s => s > cfg.max_in_memory_file_size
  | none => false

/-- The exception text raised by `save_media_as_file` (line 445). -/
def tooLargeMsg (m : Msg) : String :=
  "File too large to save (" ++ toString (m.file_size.getD 0) ++ " bytes)"

/-- `save_media_as_file` (lines 439-449): for a message with media, either
raises on the size ceiling or streams the download into the encrypted file
at `media/(msg_id)_(chat_id)`. -/
def saveMediaAsFile (cfg : Config) (m : Msg) : Except String (List HAction) :=
  if m.media.isSome then
    if tooLargeB cfg m then Except.error (tooLargeMsg m)
    else Except.ok [HAction.captureWrite m.id m.chat_id]
  else Except.ok []

/-- The duplicate check (lines 127-128):
`select(DbMessage.id).where(DbMessage.id == msg_id)` followed by
`if not scalar`.  The scalar is the `id` of the first row whose `id` equals
`msg_id` (so the check is keyed on `id` alone, not on `(chat_id, id)`), and
the branch tests its Python truthiness, so a stored row with id `0` does not
count as existing. -/
def existsTruthy (db : List DbRow) (msg_id : Int) : Bool :=
  match db.find? (fun r => r.id == msg_id) with
  | some r => r.id != 0
  | none => false

/-- The capture-gating condition (line 120):
`event.message.media and (noforwards or self_destructing)`. -/
def captureGate (ev : NMEvent) : Bool :=
  ev.msg.media.isSome && (resolveNoforwards ev || resolveSelfDestructing ev.msg)

/-- Lines 120-121 of `new_message_handler`: when the gate holds,
`save_media_as_file` is invoked; the invocation marker precedes whatever the
call does (write or raise).  Returns the actions performed and the
exception, if one escaped. -/
def captureStep (cfg : Config) (ev : NMEvent) : List HAction × Option String :=
  if captureGate ev then
    match saveMediaAsFile cfg ev.msg with
    | Except.error e => ([HAction.captureCall ev.msg.id ev.msg.chat_id], some e)
    | Except.ok acts =>
      (HAction.captureCall ev.msg.id ev.msg.chat_id :: acts, none)
  else ([], none)

/-- The `DbMessage` row built by the insert branch (lines 130-141). -/
def newRow (my_id now : Int) (ev : NMEvent) : DbRow :=
  { id := ev.msg.id
    from_id := get_sender_id my_id ev.msg
    chat_id := ev.msg.chat_id
    type := (get_chat_type ev.flags).value
    msg_text := ev.msg.text
    media := ev.msg.media
    noforwards := resolveNoforwards ev
    self_destructing := resolveSelfDestructing ev.msg
    created_at := now
    edited_at := if ev.isEditedEvt then some now else none }

/-- `new_message_handler` (lines 76-143). -/
def newMessageHandler (cfg : Config) (my_id now : Int) (db : List DbRow)
    (ev : NMEvent) : HandlerOut :=
  if linkCond cfg my_id ev then
    { actions := [HAction.linkFetch], aborted := none, db := db }
  else if ignoredCond cfg my_id ev then
    { actions := [], aborted := none, db := db }
  else
    match captureStep cfg ev with
    | (capActs, some e) => { actions := capActs, aborted := some e, db := db }
    | (capActs, none) =>
      if existsTruthy db ev.msg.id then
        { actions := capActs, aborted := none, db := db }
      else
        { actions := capActs ++ [HAction.insertRow (newRow my_id now ev)]
          aborted := none
          db := db ++ [newRow my_id now ev] }

/-- The table state after one run of `new_message_handler` (an uncaught
exception leaves the table untouched, since the insert comes last). -/
def runNM (cfg : Config) (my_id now : Int) (db : List DbRow)
    (ev : NMEvent) : List DbRow :=
  (newMessageHandler cfg my_id now db ev).db

/-- The startup side effect `config.IGNORED_IDS.add(config.LOG_CHAT_ID)`
(line 552 of `init`). -/
def initConfig (cfg : Config) : Config :=
  { cfg with ignored_ids := cfg.log_chat_id :: cfg.ignored_ids }

/-- A raw event triggering `edited_deleted_handler`: `MessageDeleted.Event`
(whose `chat_id` is `None` for deletions outside channels),
`UpdateReadMessagesContents` (which has no `chat_id` attribute at all), or
`MessageEdited.Event`. -/
inductive REvent where
  | deleted (chat_id : Option Int) (deleted_ids : List Int)
  | readContents (messages : List Int)
  | edited (chat_id : Option Int) (msg_id : Int)
  deriving DecidableEq, Repr

def REvent.isEditedEv : REvent → Bool
  | .edited _ _ => true
  | _ => false

def REvent.isReadEv : REvent → Bool
  | .readContents _ => true
  | _ => false

/-- The id list built at the top of `load_messages_from_event`
(lines 162-168): deletions and expiry reads are capped to
`RATE_LIMIT_NUM_MESSAGES`, an edit contributes its single id. -/
def loadIds (cfg : Config) : REvent → List Int
  | .deleted _ dids => dids.take cfg.rate_limit_num_messages
  | .readContents ms => ms.take cfg.rate_limit_num_messages
  | .edited _ mid => [mid]

/-- The uncapped id list rebuilt at the bottom of `edited_deleted_handler`
(lines 346-356) for the rollup test. -/
def totalIds : REvent → List Int
  | .deleted _ dids => dids
  | .readContents ms => ms
  | .edited _ mid => [mid]

/-- The verb chosen alongside `totalIds` (lines 346-356). -/
def eventVerb : REvent → String
  | .deleted _ _ => "deleted"
  | .readContents _ => "self destructed"
  | .edited _ _ => "edited"

/-- `hasattr(event, "chat_id") and event.chat_id` (line 170): the scoping
chat id when the event carries a truthy one. -/
def truthyChatId : REvent → Option Int
  | .deleted c _ | .edited c _ =>
    match c with
    | some x => if x == 0 then none else some x
    | none => none
  | .readContents _ => none

/-- `DbMessage.chat_id.notlike("-100%")` (line 173): SQLite compares the
decimal rendering of the integer column against the pattern, which excludes
exactly the channel/supergroup ids in the reserved `-100...` namespace. -/
def notLike100 (r : DbRow) : Bool :=
  !(String.isPrefixOf "-100" (toString r.chat_id))

/-- The WHERE clause of the reconciliation query (lines 170-173). -/
def whereClause (cfg : Config) (ev : REvent) (r : DbRow) : Bool :=
  match truthyChatId ev with
  | some c => r.chat_id == c && (loadIds cfg ev).contains r.id
  | none => notLike100 r && (loadIds cfg ev).contains r.id

/-- SQLite comparison of the `edited_at` column under `DESC`: larger values
first, with NULLs (treated as smaller than every value) last. -/
def editedDescCmp : Option Int → Option Int → Ordering
  | some x, some y => compare y x
  | some _, none => Ordering.lt
  | none, some _ => Ordering.gt
  | none, none => Ordering.eq

/-- The accumulated `ORDER BY edited_at DESC, created_at ASC`
(the two chained `order_by` calls, lines 188 and 190). -/
def rowLe (a b : DbRow) : Bool :=
  match editedDescCmp a.edited_at b.edited_at with
  | Ordering.lt => true
  | Ordering.gt => false
  | Ordering.eq => a.created_at ≤ b.created_at

/-- Stable insertion of a row into an already ordered list. -/
def insertOrdered (a : DbRow) : List DbRow → List DbRow
  | [] => [a]
  | b :: bs => if rowLe a b then a :: b :: bs else b :: insertOrdered a bs

/-- Stable sort realising the ORDER BY clause. -/
def sortRows : List DbRow → List DbRow
  | [] => []
  | a :: as => insertOrdered a (sortRows as)

/-- The column projection of the SELECT list (lines 177-186). -/
def projRow (r : DbRow) : QRow :=
  { id := r.id
    from_id := r.from_id
    chat_id := r.chat_id
    msg_text := r.msg_text
    media := r.media
    noforwards := r.noforwards
    self_destructing := r.self_destructing
    created_at := r.created_at }

/-- Plain `SELECT DISTINCT`: keep the first occurrence of each projected
tuple. -/
def dedupAux (seen : List QRow) : List QRow → List QRow
  | [] => []
  | x :: xs =>
    if seen.contains x then dedupAux seen xs
    else x :: dedupAux (x :: seen) xs

/-- The reconciliation query as executed on the `sqlite+aiosqlite` backend
(lines 176-193): filter by the WHERE clause, sort by the accumulated
`ORDER BY edited_at DESC, created_at ASC`, project the SELECT columns and
apply plain DISTINCT (SQLAlchemy ignores the `distinct(chat_id, id)`
expressions on every dialect but PostgreSQL). -/
def runQuery (cfg : Config) (ev : REvent) (db : List DbRow) : List QRow :=
  dedupAux [] ((sortRows (db.filter (whereClause cfg ev))).map projRow)

/-- `load_messages_from_event` (lines 159-202): run the query, then drop
read-content results that are not self-destructing. -/
def loadMessagesFromEvent (cfg : Config) (db : List DbRow)
    (ev : REvent) : List QRow :=
  (runQuery cfg ev db).filter (fun m => !ev.isReadEv || m.self_destructing)

/-- Outputs of `edited_deleted_handler` observable at the log destination:
one per-message report (rendered from the stored row) or the rollup
notice carrying its exact text. -/
inductive Out where
  | report (sender_id chat_id msg_id : Int)
  | rollup (text : String)
  deriving DecidableEq, Repr

def Out.isRollup : Out → Bool
  | .report _ _ _ => false
  | .rollup _ => true

def Out.isReport : Out → Bool
  | .report _ _ _ => true
  | .rollup _ => false

/-- The ignore test inside the per-message loop (line 260). -/
def rowIgnored (cfg : Config) (m : QRow) : Bool :=
  cfg.ignored_ids.contains m.from_id || cfg.ignored_ids.contains m.chat_id

/-- The per-message loop of `edited_deleted_handler` (lines 257-344):
each message is either ignore-suppressed — which returns from the handler
at once, discarding the rest of the loop and the rollup — or produces
mentions, is appended to `log_deleted_sender_ids` and is sent to the log
chat.  Returns the emitted reports, the collected sender ids, and whether
the loop aborted early. -/
def processLoop (cfg : Config) : List QRow → List Out × List Int × Bool
  | [] => ([], [], false)
  | m :: rest =>
    if rowIgnored cfg m then ([], [], true)
    else
      let r := processLoop cfg rest
      (Out.report m.from_id m.chat_id m.id :: r.1, m.from_id :: r.2.1, r.2.2)

/-- The rollup notice text
`f"{len(ids)} messages {event_verb}. Logged {config.RATE_LIMIT_NUM_MESSAGES}."`
(line 361). -/
def rollupText (total : Nat) (verb : String) (threshold : Nat) : String :=
  toString total ++ " messages " ++ verb ++ ". Logged " ++ toString threshold ++ "."

/-- `edited_deleted_handler` (lines 239-367). -/
def edHandler (cfg : Config) (db : List DbRow) (ev : REvent) : List Out :=
  if ev.isEditedEv && !cfg.save_edited_messages then []
  else
    let msgs := loadMessagesFromEvent cfg db ev
    let r := processLoop cfg msgs
    if r.2.2 then r.1
    else
      r.1 ++
        (if decide ((totalIds ev).length > cfg.rate_limit_num_messages)
            && !r.2.1.isEmpty
         then [Out.rollup (rollupText (totalIds ev).length (eventVerb ev)
                 cfg.rate_limit_num_messages)]
         else [])

/-- The WHERE clause of the reaper's DELETE (lines 496-508); the UNKNOWN
branch reuses the group horizon (line 500). -/
def expiredWhere (cfg : Config) (now : Int) (r : DbRow) : Bool :=
  (r.type == ChatType.USER.value
      && r.created_at < now - cfg.persist_time_in_days_user * 86400)
    || (r.type == ChatType.CHANNEL.value
      && r.created_at < now - cfg.persist_time_in_days_channel * 86400)
    || (r.type == ChatType.GROUP.value
      && r.created_at < now - cfg.persist_time_in_days_group * 86400)
    || (r.type == ChatType.BOT.value
      && r.created_at < now - cfg.persist_time_in_days_bot * 86400)
    || (r.type == ChatType.UNKNOWN.value
      && r.created_at < now - cfg.persist_time_in_days_group * 86400)

/-- The surviving table after one reaper sweep's DELETE (lines 502-514). -/
def purgeDb (cfg : Config) (now : Int) (db : List DbRow) : List DbRow :=
  db.filter (fun r => !expiredWhere cfg now r)

/-- The surviving media files after one reaper sweep (lines 518-529):
`file_persist_days = max(PERSIST_TIME_IN_DAYS_GROUP,
PERSIST_TIME_IN_DAYS_CHANNEL)` and every file whose modification time
predates `now - file_persist_days` is unlinked. -/
def purgeFiles (cfg : Config) (now : Int) (files : List MFile) : List MFile :=
  let file_persist_days :=
    max cfg.persist_time_in_days_group cfg.persist_time_in_days_channel
  files.filter (fun f => !(f.mtime < now - file_persist_days * 86400))

/-- Modelled from the spec: the file cutoff C5 asserts, `now` minus the
maximum of the per-chat-type retention horizons across **all** categories
(user, channel, group, bot) — the code of `delete_expired_messages` only
takes the maximum of group and channel. -/
def specAllTypesMaxDays (cfg : Config) : Int :=
  max (max cfg.persist_time_in_days_user cfg.persist_time_in_days_channel)
    (max cfg.persist_time_in_days_group cfg.persist_time_in_days_bot)

/-! ## Helper lemmas -/

theorem captureStep_classify (cfg : Config) (ev : NMEvent) :
    (captureGate ev = false ∧ captureStep cfg ev = ([], none)) ∨
    (captureGate ev = true ∧ tooLargeB cfg ev.msg = true ∧
      captureStep cfg ev =
        ([HAction.captureCall ev.msg.id ev.msg.chat_id], some (tooLargeMsg ev.msg))) ∨
    (captureGate ev = true ∧ tooLargeB cfg ev.msg = false ∧
      captureStep cfg ev =
        ([HAction.captureCall ev.msg.id ev.msg.chat_id,
          HAction.captureWrite ev.msg.id ev.msg.chat_id], none)) := by
  by_cases hg : captureGate ev
  · by_cases ht : tooLargeB cfg ev.msg
    · refine Or.inr (Or.inl ⟨hg, ht, ?_⟩)
      have hm : ev.msg.media.isSome = true := by
        have h := hg
        unfold captureGate at h
        simp only [Bool.and_eq_true] at h
        exact h.1
      simp [captureStep, saveMediaAsFile, hg, ht, hm]
    · refine Or.inr (Or.inr ⟨hg, by simpa using ht, ?_⟩)
      have hm : ev.msg.media.isSome = true := by
        have h := hg
        unfold captureGate at h
        simp only [Bool.and_eq_true] at h
        exact h.1
      simp [captureStep, saveMediaAsFile, hg, ht, hm]
  · exact Or.inl ⟨by simpa using hg, by simp [captureStep, hg]⟩

/-- Case analysis on `new_message_handler`: every run either leaves the
table unchanged or, when the id-only duplicate check found nothing, appends
exactly the freshly built row. -/
theorem runNM_classify (cfg : Config) (my_id now : Int) (db : List DbRow)
    (ev : NMEvent) :
    runNM cfg my_id now db ev = db ∨
    (existsTruthy db ev.msg.id = false ∧
      runNM cfg my_id now db ev = db ++ [newRow my_id now ev]) := by
  unfold runNM newMessageHandler
  by_cases hl : linkCond cfg my_id ev
  · simp [hl]
  · by_cases hi : ignoredCond cfg my_id ev
    · simp [hl, hi]
    · rcases hcs : captureStep cfg ev with ⟨capActs, err⟩
      cases err with
      | some e => simp [hl, hi, hcs]
      | none =>
        by_cases hex : existsTruthy db ev.msg.id
        · simp [hl, hi, hcs, hex]
        · simp [hl, hi, hcs, hex]

/-- When the id-only duplicate check finds a (truthy) row, the handler
leaves the table unchanged. -/
theorem runNM_of_existsTruthy (cfg : Config) (my_id now : Int)
    (db : List DbRow) (ev : NMEvent)
    (hex : existsTruthy db ev.msg.id = true) :
    runNM cfg my_id now db ev = db := by
  rcases runNM_classify cfg my_id now db ev with h | ⟨hf, _⟩
  · exact h
  · rw [hf] at hex
    exact absurd hex (by simp)

/-- A table that holds a row with nonzero id `i` passes the duplicate
check for `i`. -/
theorem existsTruthy_of_mem (db : List DbRow) (i : Int) (hi : i ≠ 0)
    (h : db.any (fun r => r.id == i) = true) :
    existsTruthy db i = true := by
  unfold existsTruthy
  rcases List.any_eq_true.mp h with ⟨r, hr, hid⟩
  have hfind : ∃ r', db.find? (fun r => r.id == i) = some r' := by
    have : (db.find? (fun r => r.id == i)).isSome = true := by
      rw [List.find?_isSome]
      exact ⟨r, hr, hid⟩
    exact Option.isSome_iff_exists.mp this
  rcases hfind with ⟨r', hr'⟩
  have hid' : r'.id = i := by
    have := List.find?_some hr'
    simpa using this
  rw [hr']
  simp [hid', hi]

/-- Conversely, a failed duplicate check for a nonzero id means no stored
row carries that id. -/
theorem not_mem_of_existsTruthy_false (db : List DbRow) (i : Int)
    (hi : i ≠ 0) (h : existsTruthy db i = false) :
    ∀ r ∈ db, r.id ≠ i := by
  intro r hr hid
  have := existsTruthy_of_mem db i hi (List.any_eq_true.mpr ⟨r, hr, by simp [hid]⟩)
  rw [h] at this
  exact absurd this (by simp)

theorem mem_insertOrdered (x a : DbRow) (l : List DbRow) :
    x ∈ insertOrdered a l ↔ x = a ∨ x ∈ l := by
  induction l with
  | nil => simp [insertOrdered]
  | cons b bs ih =>
    by_cases h : rowLe a b
    · simp [insertOrdered, h]
    · simp [insertOrdered, h, ih]
      tauto

theorem mem_sortRows (x : DbRow) (l : List DbRow) :
    x ∈ sortRows l ↔ x ∈ l := by
  induction l with
  | nil => simp [sortRows]
  | cons a as ih => simp [sortRows, mem_insertOrdered, ih]

theorem mem_dedupAux (x : QRow) (seen l : List QRow) :
    x ∈ dedupAux seen l → x ∈ l := by
  induction l generalizing seen with
  | nil => simp [dedupAux]
  | cons y ys ih =>
    intro h
    simp only [dedupAux] at h
    split at h
    · exact List.mem_cons_of_mem y (ih _ h)
    · rcases List.mem_cons.mp h with h | h
      · simp [h]
      · exact List.mem_cons_of_mem y (ih _ h)

/-- Every id a loaded record carries was among the (capped) candidate ids
of the triggering event. -/
theorem loaded_id_mem (cfg : Config) (db : List DbRow) (ev : REvent) :
    ∀ q ∈ loadMessagesFromEvent cfg db ev, q.id ∈ loadIds cfg ev := by
  intro q hq
  unfold loadMessagesFromEvent at hq
  have hq' := (List.mem_filter.mp hq).1
  unfold runQuery at hq'
  have hq'' := mem_dedupAux _ _ _ hq'
  rcases List.mem_map.mp hq'' with ⟨r, hr, hproj⟩
  have hrf : r ∈ (db.filter (whereClause cfg ev)) := (mem_sortRows r _).mp hr
  have hw : whereClause cfg ev r = true := (List.mem_filter.mp hrf).2
  have hid : q.id = r.id := by rw [← hproj]; rfl
  unfold whereClause at hw
  rcases hcid : truthyChatId ev with _ | c
  · rw [hcid] at hw
    simp only [Bool.and_eq_true] at hw
    rw [hid]
    simpa using hw.2
  · rw [hcid] at hw
    simp only [Bool.and_eq_true] at hw
    rw [hid]
    simpa using hw.2

/-- The capped candidate list never exceeds the rate-limit threshold for
deletion and expiry events. -/
theorem loadIds_length_le (cfg : Config) (ev : REvent)
    (h : ev.isEditedEv = false) :
    (loadIds cfg ev).length ≤ cfg.rate_limit_num_messages := by
  cases ev with
  | deleted c dids => simp [loadIds]
  | readContents ms => simp [loadIds]
  | edited c mid => simp [REvent.isEditedEv] at h

/-- The per-message loop never emits a rollup notice. -/
theorem processLoop_no_rollup (cfg : Config) (msgs : List QRow) :
    ∀ o ∈ (processLoop cfg msgs).1, o.isRollup = false := by
  induction msgs with
  | nil => simp [processLoop]
  | cons m rest ih =>
    intro o ho
    by_cases hi : rowIgnored cfg m
    · simp [processLoop, hi] at ho
    · simp [processLoop, hi] at ho
      rcases ho with ho | ho
      · simp [ho, Out.isRollup]
      · exact ih o ho

/-- When no loaded record is ignore-suppressed, the loop runs to
completion, reporting every record and collecting every sender. -/
theorem processLoop_complete (cfg : Config) (msgs : List QRow)
    (h : ∀ m ∈ msgs, rowIgnored cfg m = false) :
    processLoop cfg msgs =
      (msgs.map (fun m => Out.report m.from_id m.chat_id m.id),
        msgs.map (fun m => m.from_id), false) := by
  induction msgs with
  | nil => simp [processLoop]
  | cons m rest ih =>
    have hm : rowIgnored cfg m = false := h m (List.mem_cons_self m rest)
    have hrest : ∀ x ∈ rest, rowIgnored cfg x = false :=
      fun x hx => h x (List.mem_cons_of_mem m hx)
    simp [processLoop, hm, ih hrest]

/-! ## Concrete fixtures -/

/-- A baseline configuration with the repository's default threshold and
size ceiling. -/
def wCfg : Config :=
  { log_chat_id := -1009999
    ignored_ids := [42]
    rate_limit_num_messages := 5
    max_in_memory_file_size := 5242880
    persist_time_in_days_user := 1
    persist_time_in_days_channel := 1
    persist_time_in_days_group := 1
    persist_time_in_days_bot := 1
    save_edited_messages := true }

/-! ## Claims -/

/-- C9: rows of UNKNOWN chat type are purged using the group retention
horizon — on every reaper sweep at time `now`, a stored row with type
UNKNOWN is deleted by the sweep's DELETE if and only if its `created_at` is
earlier than `now` minus `PERSIST_TIME_IN_DAYS_GROUP`. -/
theorem c9_unknown_rows_use_group_horizon (cfg : Config) (now : Int)
    (db : List DbRow) (r : DbRow) (h : r.type = ChatType.UNKNOWN.value) :
    r ∈ purgeDb cfg now db ↔
      r ∈ db ∧
        ¬(r.created_at < now - cfg.persist_time_in_days_group * 86400) := by
  unfold purgeDb
  rw [List.mem_filter]
  unfold expiredWhere
  rw [h]
  simp [ChatType.value]

/-- Witness for C9: an UNKNOWN row younger than the group horizon survives
the sweep. -/
theorem c9_witness :
    ({ id := 1, from_id := 2, chat_id := 3, type := 0, msg_text := none,
       media := none, noforwards := false, self_destructing := false,
       created_at := 100000, edited_at := none } : DbRow) ∈
      purgeDb wCfg 172800
        [{ id := 1, from_id := 2, chat_id := 3, type := 0, msg_text := none,
           media := none, noforwards := false, self_destructing := false,
           created_at := 100000, edited_at := none }] :=
  (c9_unknown_rows_use_group_horizon wCfg 172800 _ _ rfl).mpr
    ⟨by decide, by decide⟩

/-- Configuration whose user horizon dominates group and channel. -/
def c5Cfg : Config := { wCfg with persist_time_in_days_user := 10 }

/-- A vault file five days old at the sweep below. -/
def c5File : MFile := { path := "media/7_100", mtime := 15 * 86400 }

/-- Counterexample to C5 as stated: with user retention 10 days and all
other horizons 1 day, the claim's cutoff (`now` minus the maximum across
all four categories) would keep a five-day-old file, but the sweep deletes
it because the code takes the maximum of group and channel only. -/
theorem c5_counterexample :
    purgeFiles c5Cfg (20 * 86400) [c5File] = [] ∧
    ¬(c5File.mtime < 20 * 86400 - specAllTypesMaxDays c5Cfg * 86400) := by
  exact ⟨by decide, by decide⟩

/-- C5 amended: the file cutoff equals `now` minus the maximum of the
group and channel horizons only, and exactly the media files whose
modification time predates that cutoff are deleted. -/
theorem c5_amended_group_channel_cutoff (cfg : Config) (now : Int)
    (files : List MFile) (f : MFile) (hf : f ∈ files) :
    f ∈ purgeFiles cfg now files ↔
      ¬(f.mtime < now -
          (max cfg.persist_time_in_days_group cfg.persist_time_in_days_channel)
            * 86400) := by
  unfold purgeFiles
  rw [List.mem_filter]
  simp [hf]

/-- Witness for the amended C5: a file newer than the group/channel cutoff
survives the sweep. -/
theorem c5_amended_witness :
    ({ path := "media/1_2", mtime := 172790 } : MFile) ∈
      purgeFiles wCfg 172800 [{ path := "media/1_2", mtime := 172790 }] :=
  (c5_amended_group_channel_cutoff wCfg 172800 _ _ (by decide)).mpr (by decide)

/-- C10: after `init` adds the configured log chat id to the ignore set,
every new-message event in the log chat that is not the manual
re-fetch-by-link command returns without performing any action: no vault
capture, no row insert, table unchanged. -/
theorem c10_log_chat_never_archived (cfg : Config) (my_id now : Int)
    (db : List DbRow) (ev : NMEvent)
    (hchat : ev.msg.chat_id = cfg.log_chat_id)
    (hlink : linkCond (initConfig cfg) my_id ev = false) :
    newMessageHandler (initConfig cfg) my_id now db ev =
      { actions := [], aborted := none, db := db } := by
  have hig : ignoredCond (initConfig cfg) my_id ev = true := by
    unfold ignoredCond initConfig
    simp only [Bool.or_eq_true]
    right
    rw [hchat]
    simp
  unfold newMessageHandler
  simp [hlink, hig]

/-- An ordinary text message sent into the log chat by a third party. -/
def c10Ev : NMEvent :=
  { msg := { id := 12, chat_id := -1009999, peer_id := Peer.channel 9999,
             out := false, from_id := some (Peer.user 8), text := some "hey",
             media := none, noforwards := false, file_size := none }
    isEditedEvt := false
    chat_noforwards := none
    linkMatch := false
    flags := { is_group := false, is_channel := true, is_private := false,
               sender_is_bot := false } }

/-- Witness for C10: the concrete log-chat message is fully suppressed. -/
theorem c10_witness :
    newMessageHandler (initConfig wCfg) 111 1000 [] c10Ev =
      { actions := [], aborted := none, db := [] } :=
  c10_log_chat_never_archived wCfg 111 1000 [] c10Ev rfl (by decide)

/-- A noforwards photo message whose file exceeds the 5 MiB ceiling. -/
def c6Ev : NMEvent :=
  { msg := { id := 9, chat_id := 300, peer_id := Peer.user 5, out := false,
             from_id := none, text := none,
             media := some { ttl_seconds := none }, noforwards := false,
             file_size := some 6291456 }
    isEditedEvt := false
    chat_noforwards := some true
    linkMatch := false
    flags := { is_group := false, is_channel := false, is_private := true,
               sender_is_bot := false } }

/-- C6 failing input: an oversized noforwards capture raises the
`File too large` exception with no handler on the ingestion path, so it
propagates out of `new_message_handler` and the event's record is never
stored — contradicting the claim that the failure is recoverable and the
record is still inserted without the media bytes. -/
theorem c6_oversized_capture_aborts_ingestion :
    newMessageHandler wCfg 111 1000 [] c6Ev =
      { actions := [HAction.captureCall 9 300]
        aborted := some "File too large to save (6291456 bytes)"
        db := [] } := by
  rfl

/-- First observation: message id 5 in chat 100. -/
def c1Ev1 : NMEvent :=
  { msg := { id := 5, chat_id := 100, peer_id := Peer.user 7, out := false,
             from_id := none, text := some "hi", media := none,
             noforwards := false, file_size := none }
    isEditedEvt := false
    chat_noforwards := none
    linkMatch := false
    flags := { is_group := false, is_channel := false, is_private := true,
               sender_is_bot := false } }

/-- Second observation: the same message id 5, but in chat 200. -/
def c1Ev2 : NMEvent :=
  { msg := { id := 5, chat_id := 200, peer_id := Peer.user 8, out := false,
             from_id := none, text := some "yo", media := none,
             noforwards := false, file_size := none }
    isEditedEvt := false
    chat_noforwards := none
    linkMatch := false
    flags := { is_group := false, is_channel := false, is_private := true,
               sender_is_bot := false } }

/-- Counterexample to C1 as stated: the duplicate check of
`new_message_handler` is `select(DbMessage.id).where(DbMessage.id == msg_id)`
— keyed on the id alone.  After observing `(chat 100, id 5)` and then
`(chat 200, id 5)`, only one row exists and no row for chat 200 was ever
inserted, falsifying "two observations that share an id but differ in
chat_id each produce their own row". -/
theorem c1_counterexample :
    (runNM wCfg 111 1000 (runNM wCfg 111 500 [] c1Ev1) c1Ev2).length = 1 ∧
    (runNM wCfg 111 1000 (runNM wCfg 111 500 [] c1Ev1) c1Ev2).any
        (fun r => r.chat_id == 200 && r.id == 5) = false ∧
    (runNM wCfg 111 1000 (runNM wCfg 111 500 [] c1Ev1) c1Ev2).any
        (fun r => r.chat_id == 100 && r.id == 5) = true := by
  decide

/-- No two stored rows share a message id. -/
def noDupIds (db : List DbRow) : Prop := (db.map DbRow.id).Nodup

/-- C1 amended: ingestion is idempotent per id, not per `(chat_id, id)`
pair.  For events with a nonzero message id, the handler preserves
uniqueness of ids across the whole table, and any observation whose id is
already stored — same chat or not — leaves the table unchanged. -/
theorem c1_idempotent_per_id (cfg : Config) (my_id now : Int)
    (db : List DbRow) (ev : NMEvent) (h0 : ev.msg.id ≠ 0) :
    (noDupIds db → noDupIds (runNM cfg my_id now db ev)) ∧
    (db.any (fun r => r.id == ev.msg.id) = true →
      runNM cfg my_id now db ev = db) := by
  constructor
  · intro hnd
    rcases runNM_classify cfg my_id now db ev with h | ⟨hf, h⟩
    · rw [h]; exact hnd
    · rw [h]
      unfold noDupIds at hnd ⊢
      rw [List.map_append]
      refine List.Nodup.append hnd (List.nodup_singleton _) ?_
      intro a ha hb
      have hid : a = ev.msg.id := by
        simpa [newRow] using hb
      rcases List.mem_map.mp ha with ⟨r, hr, hra⟩
      exact not_mem_of_existsTruthy_false db ev.msg.id h0 hf r hr (hra.trans hid)
  · intro hany
    exact runNM_of_existsTruthy cfg my_id now db ev
      (existsTruthy_of_mem db ev.msg.id h0 hany)

/-- A stored row with id 5 in chat 100. -/
def c1Row : DbRow :=
  { id := 5, from_id := 7, chat_id := 100, type := 1, msg_text := some "hi",
    media := none, noforwards := false, self_destructing := false,
    created_at := 500, edited_at := none }

/-- Witness for the amended C1: with row `(id 5, chat 100)` stored, the
observation of `(id 5, chat 200)` changes nothing. -/
theorem c1_idempotent_per_id_witness :
    runNM wCfg 111 1000 [c1Row] c1Ev2 = [c1Row] :=
  (c1_idempotent_per_id wCfg 111 1000 [c1Row] c1Ev2 (by decide)).2 (by decide)

/-- A stored row for message 7 in chat 100, never edited. -/
def c7Row : DbRow :=
  { id := 7, from_id := 5, chat_id := 100, type := 1,
    msg_text := some "hello", media := none, noforwards := false,
    self_destructing := false, created_at := 500, edited_at := none }

/-- An edit event for message 7 in chat 100. -/
def c7Ev : NMEvent :=
  { msg := { id := 7, chat_id := 100, peer_id := Peer.user 5, out := false,
             from_id := none, text := some "hello v2", media := none,
             noforwards := false, file_size := none }
    isEditedEvt := true
    chat_noforwards := none
    linkMatch := false
    flags := { is_group := false, is_channel := false, is_private := true,
               sender_is_bot := false } }

/-- Counterexample to C7 as stated: processing an edit event for a message
whose row already exists leaves `edited_at` at NULL — the handler only
writes `edited_at` when the edit event itself first creates the row, so
the claim's "edited_at is set on that row" is false. -/
theorem c7_counterexample :
    runNM wCfg 111 1000 [c7Row] c7Ev = [c7Row] ∧ c7Row.edited_at = none := by
  decide

/-- C7 amended: when an edit event arrives for a (nonzero) id whose row
already exists, the handler performs no update at all — every field of the
stored row, `edited_at` included, is left unchanged. -/
theorem c7_existing_row_untouched_on_edit (cfg : Config) (my_id now : Int)
    (db : List DbRow) (ev : NMEvent) (h0 : ev.msg.id ≠ 0)
    (_hed : ev.isEditedEvt = true)
    (hex : db.any (fun r => r.id == ev.msg.id) = true) :
    runNM cfg my_id now db ev = db :=
  runNM_of_existsTruthy cfg my_id now db ev
    (existsTruthy_of_mem db ev.msg.id h0 hex)

/-- Witness for the amended C7 at a concrete edit of a stored message. -/
theorem c7_existing_row_untouched_witness :
    runNM wCfg 111 2000 [c7Row] c7Ev = [c7Row] :=
  c7_existing_row_untouched_on_edit wCfg 111 2000 [c7Row] c7Ev (by decide)
    rfl (by decide)

/-- C2: for a processed (non-link, non-ignored) new-or-edited message
event, `save_media_as_file` is invoked iff the message carries media and
(resolved `noforwards` or `self_destructing`), and every capture action
precedes the record insert in the handler's action trace. -/
theorem c2_capture_gating (cfg : Config) (my_id now : Int)
    (db : List DbRow) (ev : NMEvent)
    (hl : linkCond cfg my_id ev = false)
    (hi : ignoredCond cfg my_id ev = false) :
    ((newMessageHandler cfg my_id now db ev).actions.any HAction.isCaptureCall
      = (ev.msg.media.isSome
          && (resolveNoforwards ev || resolveSelfDestructing ev.msg))) ∧
    (∃ pre post,
      (newMessageHandler cfg my_id now db ev).actions = pre ++ post ∧
      (∀ a ∈ pre, a.isInsert = false) ∧
      (∀ a ∈ post, a.isCaptureCall = false)) := by
  have hgate : (ev.msg.media.isSome
      && (resolveNoforwards ev || resolveSelfDestructing ev.msg))
      = captureGate ev := rfl
  rw [hgate]
  unfold newMessageHandler
  rw [hl, hi]
  simp only [Bool.false_eq_true, if_false]
  rcases captureStep_classify cfg ev with ⟨hg, hcs⟩ | ⟨hg, _, hcs⟩ | ⟨hg, _, hcs⟩
  · rw [hcs, hg]
    by_cases hex : existsTruthy db ev.msg.id
    · exact ⟨by simp [hex], [], [], by simp [hex],
        by simp, by simp⟩
    · exact ⟨by simp [hex, HAction.isCaptureCall], [],
        [HAction.insertRow (newRow my_id now ev)],
        by simp [hex], by simp,
        by simp [HAction.isCaptureCall]⟩
  · rw [hcs, hg]
    exact ⟨by simp [HAction.isCaptureCall],
      [HAction.captureCall ev.msg.id ev.msg.chat_id], [],
      by simp, by simp [HAction.isInsert], by simp⟩
  · rw [hcs, hg]
    by_cases hex : existsTruthy db ev.msg.id
    · exact ⟨by simp [hex, HAction.isCaptureCall],
        [HAction.captureCall ev.msg.id ev.msg.chat_id,
          HAction.captureWrite ev.msg.id ev.msg.chat_id], [],
        by simp [hex], by simp [HAction.isInsert], by simp⟩
    · exact ⟨by simp [hex, HAction.isCaptureCall],
        [HAction.captureCall ev.msg.id ev.msg.chat_id,
          HAction.captureWrite ev.msg.id ev.msg.chat_id],
        [HAction.insertRow (newRow my_id now ev)],
        by simp [hex], by simp [HAction.isInsert],
        by simp [HAction.isCaptureCall]⟩

/-- A small noforwards photo in a private chat: gate holds, capture
succeeds, row inserted. -/
def c2Ev : NMEvent :=
  { msg := { id := 21, chat_id := 400, peer_id := Peer.user 6, out := false,
             from_id := none, text := none,
             media := some { ttl_seconds := none }, noforwards := false,
             file_size := some 1000 }
    isEditedEvt := false
    chat_noforwards := some true
    linkMatch := false
    flags := { is_group := false, is_channel := false, is_private := true,
               sender_is_bot := false } }

/-- Witness for C2 at a concrete gated event. -/
theorem c2_capture_gating_witness :
    (newMessageHandler wCfg 111 1000 [] c2Ev).actions.any HAction.isCaptureCall
      = (c2Ev.msg.media.isSome
          && (resolveNoforwards c2Ev || resolveSelfDestructing c2Ev.msg)) :=
  (c2_capture_gating wCfg 111 1000 [] c2Ev (by decide) (by decide)).1

/-- C8: the "edited" rollup notice is unreachable — a `MessageEdited` event
always yields an id list of length exactly 1 at the rollup test, so with a
rate-limit threshold of at least 1 the condition
`len(ids) > RATE_LIMIT_NUM_MESSAGES` never holds and no rollup output is
ever produced by `edited_deleted_handler` for an edit. -/
theorem c8_edit_rollup_unreachable (cfg : Config) (db : List DbRow)
    (c : Option Int) (mid : Int)
    (hT : 1 ≤ cfg.rate_limit_num_messages) :
    (totalIds (REvent.edited c mid)).length = 1 ∧
    ∀ o ∈ edHandler cfg db (REvent.edited c mid), o.isRollup = false := by
  refine ⟨rfl, ?_⟩
  intro o ho
  by_cases hs : cfg.save_edited_messages
  · have hguard : ((REvent.edited c mid).isEditedEv
        && !cfg.save_edited_messages) = false := by
      simp [REvent.isEditedEv, hs]
    have hgt : decide ((totalIds (REvent.edited c mid)).length
        > cfg.rate_limit_num_messages) = false := by
      apply decide_eq_false
      simpa [totalIds] using Nat.not_lt.mpr hT
    rw [edHandler, hguard] at ho
    simp only [Bool.false_eq_true, if_false] at ho
    rw [hgt] at ho
    simp only [Bool.false_and, Bool.false_eq_true, if_false,
      List.append_nil] at ho
    by_cases hab :
        (processLoop cfg (loadMessagesFromEvent cfg db (REvent.edited c mid))).2.2
    · rw [if_pos hab] at ho
      exact processLoop_no_rollup cfg _ o ho
    · rw [if_neg hab] at ho
      exact processLoop_no_rollup cfg _ o ho
  · have hguard : ((REvent.edited c mid).isEditedEv
        && !cfg.save_edited_messages) = true := by
      simp [REvent.isEditedEv, hs]
    rw [edHandler, hguard] at ho
    simp at ho

/-- Witness for C8: editing a stored message produces its edit report and
no rollup. -/
theorem c8_edit_rollup_unreachable_witness :
    (totalIds (REvent.edited (some 100) 7)).length = 1 ∧
    ∀ o ∈ edHandler wCfg [c7Row] (REvent.edited (some 100) 7),
      o.isRollup = false :=
  c8_edit_rollup_unreachable wCfg [c7Row] (some 100) 7 (by decide)

/-- When no loaded record is ignore-suppressed, `edited_deleted_handler`
for a deletion/expiry event reports every loaded record and then emits the
rollup exactly under its guard. -/
theorem edHandler_complete (cfg : Config) (db : List DbRow) (ev : REvent)
    (hkind : ev.isEditedEv = false)
    (hni : ∀ q ∈ loadMessagesFromEvent cfg db ev, rowIgnored cfg q = false) :
    edHandler cfg db ev =
      (loadMessagesFromEvent cfg db ev).map
        (fun m => Out.report m.from_id m.chat_id m.id) ++
      (if decide ((totalIds ev).length > cfg.rate_limit_num_messages)
          && !((loadMessagesFromEvent cfg db ev).map
                (fun m => m.from_id)).isEmpty
        then [Out.rollup (rollupText (totalIds ev).length (eventVerb ev)
                cfg.rate_limit_num_messages)]
        else []) := by
  have hguard : (ev.isEditedEv && !cfg.save_edited_messages) = false := by
    rw [hkind]
    rfl
  have hloop := processLoop_complete cfg (loadMessagesFromEvent cfg db ev) hni
  simp only [edHandler, hguard, Bool.false_eq_true, if_false, hloop]

/-- The rollup guard's Boolean condition, in propositional form. -/
theorem rollup_guard_iff (cfg : Config) (db : List DbRow) (ev : REvent) :
    (decide ((totalIds ev).length > cfg.rate_limit_num_messages)
        && !((loadMessagesFromEvent cfg db ev).map
              (fun m => m.from_id)).isEmpty) = true ↔
      ((totalIds ev).length > cfg.rate_limit_num_messages ∧
        loadMessagesFromEvent cfg db ev ≠ []) := by
  simp [List.isEmpty_iff]

/-- C4 amended: for every deletion/expiry event whose loaded records are
all outside the ignore set (ignore suppression aborts the handler before
the rollup), at most `RATE_LIMIT_NUM_MESSAGES` candidate ids — the first
ones in event order — are loaded and reported individually, and exactly
when the total id count of the raw event exceeds the threshold and at
least one record was loaded (hence a sender mention produced), one rollup
notice `"{total} messages {verb}. Logged {threshold}."` is emitted. -/
theorem c4_rate_limit_rollup (cfg : Config) (db : List DbRow) (ev : REvent)
    (hkind : ev.isEditedEv = false)
    (hni : ∀ q ∈ loadMessagesFromEvent cfg db ev, rowIgnored cfg q = false) :
    (∀ q ∈ loadMessagesFromEvent cfg db ev, q.id ∈ loadIds cfg ev) ∧
    (loadIds cfg ev).length ≤ cfg.rate_limit_num_messages ∧
    ((edHandler cfg db ev).countP Out.isRollup =
      if (totalIds ev).length > cfg.rate_limit_num_messages ∧
          loadMessagesFromEvent cfg db ev ≠ [] then 1 else 0) ∧
    ((totalIds ev).length > cfg.rate_limit_num_messages →
      loadMessagesFromEvent cfg db ev ≠ [] →
      Out.rollup (rollupText (totalIds ev).length (eventVerb ev)
          cfg.rate_limit_num_messages) ∈ edHandler cfg db ev) := by
  have hcomp := edHandler_complete cfg db ev hkind hni
  have hreports : ((loadMessagesFromEvent cfg db ev).map
      (fun m => Out.report m.from_id m.chat_id m.id)).countP Out.isRollup
        = 0 := by
    rw [List.countP_eq_zero]
    intro o ho
    rcases List.mem_map.mp ho with ⟨m, _, hm⟩
    rw [← hm]
    simp [Out.isRollup]
  refine ⟨loaded_id_mem cfg db ev, loadIds_length_le cfg ev hkind, ?_, ?_⟩
  · rw [hcomp, List.countP_append, hreports]
    by_cases hc : (totalIds ev).length > cfg.rate_limit_num_messages ∧
        loadMessagesFromEvent cfg db ev ≠ []
    · rw [(rollup_guard_iff cfg db ev).mpr hc]
      rw [if_pos hc]
      simp [Out.isRollup]
    · have hb := Bool.eq_false_iff.mpr
        (fun h => hc ((rollup_guard_iff cfg db ev).mp h))
      rw [hb]
      rw [if_neg hc]
      rfl
  · intro h1 h2
    rw [hcomp]
    apply List.mem_append_right
    rw [(rollup_guard_iff cfg db ev).mpr ⟨h1, h2⟩]
    simp

/-- A stored, non-ignored row for message 1 in chat 50. -/
def c4wRow : DbRow :=
  { id := 1, from_id := 5, chat_id := 50, type := 3, msg_text := some "a",
    media := none, noforwards := false, self_destructing := false,
    created_at := 10, edited_at := none }

/-- Witness for the amended C4, matching the spec's own test scenario:
threshold 5, a deletion event carrying 9 ids, one resolvable stored sender
— the rollup notice `"9 messages deleted. Logged 5."` is emitted. -/
theorem c4_rate_limit_rollup_witness :
    Out.rollup "9 messages deleted. Logged 5." ∈
      edHandler wCfg [c4wRow]
        (REvent.deleted (some 50) [1, 2, 3, 4, 5, 6, 7, 8, 9]) := by
  have h := c4_rate_limit_rollup wCfg [c4wRow]
    (REvent.deleted (some 50) [1, 2, 3, 4, 5, 6, 7, 8, 9]) rfl (by decide)
  have hm := h.2.2.2 (by decide) (by decide)
  exact hm

/-- Threshold 2, with sender 999 ignored. -/
def c4Cfg : Config :=
  { wCfg with rate_limit_num_messages := 2, ignored_ids := [999] }

/-- A loadable row whose sender is fine. -/
def c4Row1 : DbRow :=
  { id := 1, from_id := 5, chat_id := 50, type := 3, msg_text := some "a",
    media := none, noforwards := false, self_destructing := false,
    created_at := 10, edited_at := none }

/-- A second loadable row whose sender 999 is in the ignore set. -/
def c4Row2 : DbRow :=
  { id := 2, from_id := 999, chat_id := 50, type := 3, msg_text := some "b",
    media := none, noforwards := false, self_destructing := false,
    created_at := 20, edited_at := none }

/-- Counterexample to C4 as stated: a deletion of 3 ids with threshold 2
loads two rows; the first produces a sender mention (an individual report
is emitted), the raw event's total 3 exceeds the threshold 2, yet no
rollup notice is emitted — the second loaded row's ignored sender makes
the handler return before the rollup step.  So "exactly when total exceeds
the threshold and at least one sender mention was produced" fails. -/
theorem c4_counterexample :
    (edHandler c4Cfg [c4Row1, c4Row2]
        (REvent.deleted (some 50) [1, 2, 3])).countP Out.isReport = 1 ∧
    (totalIds (REvent.deleted (some 50) [1, 2, 3])).length >
      c4Cfg.rate_limit_num_messages ∧
    (edHandler c4Cfg [c4Row1, c4Row2]
        (REvent.deleted (some 50) [1, 2, 3])).countP Out.isRollup = 0 := by
  decide

/-- Two stored rows sharing `(chat_id, id) = (100, 5)` with `edited_at`
1 and 2 and distinct `created_at`. -/
def c3Row1 : DbRow :=
  { id := 5, from_id := 6, chat_id := 100, type := 1, msg_text := some "x",
    media := none, noforwards := false, self_destructing := false,
    created_at := 10, edited_at := some 1 }

def c3Row2 : DbRow :=
  { id := 5, from_id := 6, chat_id := 100, type := 1, msg_text := some "x",
    media := none, noforwards := false, self_destructing := false,
    created_at := 20, edited_at := some 2 }

/-- C3 failing input, evaluated: on the SQLite backend the reconciliation
query returns BOTH rows sharing `(chat_id, id)` — SQLAlchemy ignores the
`distinct(chat_id, id)` expressions outside PostgreSQL, and plain DISTINCT
keeps both projections because their `created_at` differ — and orders them
by `edited_at` descending first, not `created_at` ascending.  The claim
says only the `edited_at = 2` row comes back. -/
theorem c3_failing_eval :
    loadMessagesFromEvent wCfg [c3Row1, c3Row2]
        (REvent.deleted (some 100) [5]) =
      [projRow c3Row2, projRow c3Row1] ∧
    (loadMessagesFromEvent wCfg [c3Row1, c3Row2]
        (REvent.deleted (some 100) [5])).length = 2 := by
  decide
